import Mathlib

/-!
# ONTAP SAN storage driver (`storage/ontap/ontap_san.go`)

A shallow embedding of the iSCSI driver of the storage orchestrator.

* Go strings are Lean `String`s, Go `int` and `int32` values are `Int`s with the
  conversions between them written out (`int32`, `stringOfInt`).
* A Go result pair `(T, error)` is a pair `T × Option GoError`; `none` is the nil error.
* The controller client `d.API` and the host process runner are external collaborators.
  They are records of functions over an abstract collaborator state `σ`; every call made
  by the driver is appended to a call log so that call order and call counts can be stated.
* Pointer arguments that the Go code updates in place (`volConfig`) are returned in the
  outcome record.
* Diagnostic logging (`log.WithFields(...).Debug/Info`) has no effect on any value
  returned or stored and is left out.
-/

namespace Ontap

/-! ## Go primitives -/

/-- Go `error` value that is not nil; `Error` is the text of its `Error()` method. -/
structure GoError where
  Error : String
deriving DecidableEq, Repr

/-- The verb `%v` of package `fmt` applied to an `error` operand: `<nil>` for the nil
error, the text of `Error()` otherwise. -/
def fmtError : Option GoError → String
  | none => "<nil>"
  | some e => e.Error

/-- Go conversion `int32(x)` of an integer value: the value is reduced modulo `2^32`
into the range `[-2^31, 2^31)`. -/
def int32 (x : Int) : Int :=
  (x + 2147483648) % 4294967296 - 2147483648

/-- Range of Go `int` on the 64-bit platforms the orchestrator is built for. -/
def isInt (x : Int) : Prop :=
  -9223372036854775808 ≤ x ∧ x ≤ 9223372036854775807

instance (x : Int) : Decidable (isInt x) := by
  unfold isInt; infer_instance

/-- Range of Go `int32`. -/
def isInt32 (x : Int) : Prop :=
  -2147483648 ≤ x ∧ x ≤ 2147483647

instance (x : Int) : Decidable (isInt32 x) := by
  unfold isInt32; infer_instance

/-- The Unicode replacement character `U+FFFD` (`utf8.RuneError`). -/
def runeError : Char := Char.ofNat 0xFFFD

/-- Go conversion `string(v)` of an integer value `v`: the string holding the single
code point `v`, or `"�"` when `v` is not a valid code point (negative, a surrogate,
or above `U+10FFFF`). -/
def stringOfInt (v : Int) : String :=
  if 0 ≤ v ∧ (v.toNat < 0xD800 ∨ (0xDFFF < v.toNat ∧ v.toNat < 0x110000)) then
    String.singleton (Char.ofNat v.toNat)
  else
    String.singleton runeError

/-- Go `strconv.FormatBool`. -/
def FormatBool (b : Bool) : String :=
  if b then "true" else "false"

/-- Go `strconv.Itoa` / `strconv.FormatInt(_, 10)`: the decimal representation. -/
def Itoa (v : Int) : String :=
  if v < 0 then "-" ++ Nat.repr v.natAbs else Nat.repr v.toNat

/-! ## Controller API types (package `azgo` of the controller client) -/

/-- One iSCSI service endpoint: the getters `Vserver()` and `NodeName()`. -/
structure IscsiServiceInfoType where
  Vserver : String
  NodeName : String
deriving DecidableEq, Repr

/-- The `Result` part of the response to `iscsi-service-get-iter`. -/
structure IscsiServiceGetIterResponseResult where
  ResultStatusAttr : String
  ResultErrnoAttr : String
  AttributesList : List IscsiServiceInfoType
deriving DecidableEq, Repr

structure IscsiServiceGetIterResponse where
  Result : IscsiServiceGetIterResponseResult
deriving DecidableEq, Repr

structure VolumeExportAttributesType where
  Policy : String
deriving DecidableEq, Repr

structure VolumeIdAttributesType where
  ContainingAggregateName : String
deriving DecidableEq, Repr

structure VolumeSecurityUnixAttributesType where
  Permissions : String
deriving DecidableEq, Repr

structure VolumeSecurityAttributesType where
  VolumeSecurityUnixAttributes : VolumeSecurityUnixAttributesType
deriving DecidableEq, Repr

/-- Space attributes; `SizeTotal()` is a Go `int`. -/
structure VolumeSpaceAttributesType where
  SizeTotal : Int
deriving DecidableEq, Repr

structure VolumeSnapshotAttributesType where
  SnapshotPolicy : String
  SnapdirAccessEnabled : Bool
deriving DecidableEq, Repr

/-- The attribute set returned by `VolumeGet`, with the sub-records `GetExternalVolume`
reads. -/
structure VolumeAttributesType where
  VolumeExportAttributes : VolumeExportAttributesType
  VolumeIdAttributes : VolumeIdAttributesType
  VolumeSecurityAttributes : VolumeSecurityAttributesType
  VolumeSpaceAttributes : VolumeSpaceAttributesType
  VolumeSnapshotAttributes : VolumeSnapshotAttributesType
deriving DecidableEq, Repr

/-- Optional controller features that can be probed (`ontap.feature`). -/
inductive feature where
  | NETAPP_VOLUME_ENCRYPTION
deriving DecidableEq, Repr

/-- The controller calls this driver file makes, as recorded in the call log. -/
inductive ApiCall where
  | SupportsApiFeature (f : feature)
  | IscsiServiceGetIterRequest
  | LunMapIfNotMapped (initiatorGroupName lunPath : String)
  | VolumeGet (name : String)
deriving DecidableEq, Repr

/-- The controller client `d.API`: each method maps its arguments and the collaborator
state to its Go results and the next collaborator state. -/
structure API (σ : Type) where
  SupportsApiFeature : feature → σ → Bool × σ
  IscsiServiceGetIterRequest : σ → (IscsiServiceGetIterResponse × Option GoError) × σ
  LunMapIfNotMapped : String → String → σ → (Int × Option GoError) × σ
  VolumeGet : String → σ → (VolumeAttributesType × Option GoError) × σ

/-- Collaborator state together with the log of controller calls made so far. -/
structure World (σ : Type) where
  state : σ
  calls : List ApiCall

/-! ## Orchestrator types (packages `config`, `storage`, `storage_attribute`) -/

/-- Modelled from the spec: the protocol kinds of package `config`; the driver file
names only `config.Block`. -/
inductive Protocol where
  | File
  | Block
  | ProtocolAny
deriving DecidableEq, Repr

/-- Modelled from the spec: the access modes of package `config`; the driver file names
only `config.ReadWriteOnce` (single-writer). -/
inductive AccessMode where
  | ReadWriteOnce
  | ReadOnlyMany
  | ReadWriteMany
  | ModeAny
deriving DecidableEq, Repr

/-- Modelled from the spec: `storage.VolumeAccessInfo`, the mutable access sub-record
with target portal address, target IQN, LUN number (`int32`) and initiator group name. -/
structure VolumeAccessInfo where
  IscsiTargetPortal : String
  IscsiTargetIQN : String
  IscsiLunNumber : Int
  IscsiIgroup : String
deriving DecidableEq, Repr

/-- The zero value `storage.VolumeAccessInfo{}`. -/
def VolumeAccessInfo.zero : VolumeAccessInfo :=
  { IscsiTargetPortal := "", IscsiTargetIQN := "", IscsiLunNumber := 0, IscsiIgroup := "" }

/-- The volume record `storage.VolumeConfig`, with the fields the composite literal in
`GetExternalVolume` names. -/
structure VolumeConfig where
  Version : String
  Name : String
  InternalName : String
  Size : String
  Protocol : Protocol
  SnapshotPolicy : String
  ExportPolicy : String
  SnapshotDir : String
  UnixPermissions : String
  StorageClass : String
  AccessMode : AccessMode
  AccessInfo : VolumeAccessInfo
  BlockSize : String
  FileSystem : String
deriving DecidableEq, Repr

/-- The descriptor `storage.VolumeExternal`. -/
structure VolumeExternal where
  Config : VolumeConfig
  Backend : String
  Pool : String
deriving DecidableEq, Repr

/-- Modelled from the spec: the fixed enumerated set of capability keys of package
`storage_attribute` (backend-type, snapshot-support, encryption-support,
provisioning-type). -/
inductive AttributeKey where
  | BackendType
  | Snapshots
  | Encryption
  | ProvisioningType
deriving DecidableEq, Repr

/-- Modelled from the spec: a capability offer of package `storage_attribute`, either
the boolean offer built by `NewBoolOffer` or the string-set offer built by
`NewStringOffer` from its arguments. -/
inductive Offer where
  | NewBoolOffer (offer : Bool)
  | NewStringOffer (offers : List String)
deriving DecidableEq, Repr

/-! ## Driver configuration -/

/-- The part of `dvp.CommonStorageDriverConfig` this file reads. -/
structure CommonStorageDriverConfig where
  StorageDriverName : String
deriving DecidableEq, Repr

/-- The part of `dvp.OntapStorageDriverConfig` this file reads. -/
structure OntapStorageDriverConfig where
  CommonStorageDriverConfig : CommonStorageDriverConfig
  DataLIF : String
  IgroupName : String
  SVM : String
deriving DecidableEq, Repr

/-- The driver: the embedded `dvp.OntapSANStorageDriver` with its configuration, its
controller client and the result of its `Name()` method. -/
structure OntapSANStorageDriver (σ : Type) where
  Name : String
  Config : OntapStorageDriverConfig
  API : API σ

/-! ## Driver operations -/

/-- `GetStoragePoolAttributes`: the map literal as the list of its key/offer entries,
together with the world after the single feature probe. -/
def GetStoragePoolAttributes {σ : Type} (d : OntapSANStorageDriver σ) (w : World σ) :
    List (AttributeKey × Offer) × World σ :=
  let probe := d.API.SupportsApiFeature feature.NETAPP_VOLUME_ENCRYPTION w.state
  ([ (AttributeKey.BackendType, Offer.NewStringOffer [d.Name]),
     (AttributeKey.Snapshots, Offer.NewBoolOffer true),
     (AttributeKey.Encryption, Offer.NewBoolOffer probe.1),
     (AttributeKey.ProvisioningType, Offer.NewStringOffer ["thick", "thin"]) ],
   { state := probe.2,
     calls := w.calls ++ [ApiCall.SupportsApiFeature feature.NETAPP_VOLUME_ENCRYPTION] })

/-- Lookup of a key in the returned map. -/
def lookupOffer (k : AttributeKey) : List (AttributeKey × Offer) → Option Offer
  | [] => none
  | (k1, o) :: rest => if k1 = k then some o else lookupOffer k rest

/-- `GetInternalVolumeName`; the helper `getInternalVolumeNameCommon` of the common
driver code is a parameter. -/
def GetInternalVolumeName {σ : Type}
    (getInternalVolumeNameCommon : CommonStorageDriverConfig → String → String)
    (d : OntapSANStorageDriver σ) (name : String) : String :=
  getInternalVolumeNameCommon d.Config.CommonStorageDriverConfig name

/-- The loop of `mapOntapSANLun` over `response.Result.AttributesList()`: `targetIQN`
starts as the empty string and takes the node name of the first entry whose `Vserver()`
equals the configured SVM, at which point the loop breaks. -/
def scanServices (svm : String) : List IscsiServiceInfoType → String
  | [] => ""
  | serviceInfo :: rest =>
    if serviceInfo.Vserver = svm then serviceInfo.NodeName else scanServices svm rest

/-- Outcome of `mapOntapSANLun`: the returned error, the volume record behind the
pointer `volConfig` and the driver behind the receiver after the call, and the world. -/
structure MapOutcome (σ : Type) where
  err : Option GoError
  volConfig : VolumeConfig
  driver : OntapSANStorageDriver σ
  world : World σ

/-- `mapOntapSANLun`. -/
def mapOntapSANLun {σ : Type} (d : OntapSANStorageDriver σ) (volConfig : VolumeConfig)
    (w : World σ) : MapOutcome σ :=
  let r1 := d.API.IscsiServiceGetIterRequest w.state
  let response := r1.1.1
  let err := r1.1.2
  let w1 : World σ := { state := r1.2, calls := w.calls ++ [ApiCall.IscsiServiceGetIterRequest] }
  if response.Result.ResultStatusAttr ≠ "passed" ∨ err ≠ none then
    { err := some ⟨"Problem retrieving iSCSI services: " ++ fmtError err ++ ", "
              ++ response.Result.ResultErrnoAttr⟩,
      volConfig := volConfig, driver := d, world := w1 }
  else
    let targetIQN := scanServices d.Config.SVM response.Result.AttributesList
    let lunPath := "/vol/" ++ volConfig.InternalName ++ "/lun0"
    let r2 := d.API.LunMapIfNotMapped d.Config.IgroupName lunPath w1.state
    let lunID := r2.1.1
    let w2 : World σ :=
      { state := r2.2,
        calls := w1.calls ++ [ApiCall.LunMapIfNotMapped d.Config.IgroupName lunPath] }
    match r2.1.2 with
    | some e => { err := some e, volConfig := volConfig, driver := d, world := w2 }
    | none =>
      { err := none,
        volConfig :=
          { volConfig with
            AccessInfo :=
              { volConfig.AccessInfo with
                IscsiTargetPortal := d.Config.DataLIF
                IscsiTargetIQN := targetIQN
                IscsiLunNumber := int32 lunID
                IscsiIgroup := d.Config.IgroupName } },
        driver := d, world := w2 }

/-- `CreateFollowup`. -/
def CreateFollowup {σ : Type} (d : OntapSANStorageDriver σ) (volConfig : VolumeConfig)
    (w : World σ) : MapOutcome σ :=
  mapOntapSANLun d volConfig w

/-- `GetProtocol`. -/
def GetProtocol {σ : Type} (_d : OntapSANStorageDriver σ) : Protocol :=
  Protocol.Block

/-- `GetDriverName`. -/
def GetDriverName {σ : Type} (d : OntapSANStorageDriver σ) : String :=
  d.Config.CommonStorageDriverConfig.StorageDriverName

/-- `GetExternalVolume`: the pair of Go results (nil pointer as `none`) and the world. -/
def GetExternalVolume {σ : Type}
    (getInternalVolumeNameCommon : CommonStorageDriverConfig → String → String)
    (d : OntapSANStorageDriver σ) (name : String) (w : World σ) :
    (Option VolumeExternal × Option GoError) × World σ :=
  let internalName := GetInternalVolumeName getInternalVolumeNameCommon d name
  let r := d.API.VolumeGet internalName w.state
  let volumeAttributes := r.1.1
  let w1 : World σ := { state := r.2, calls := w.calls ++ [ApiCall.VolumeGet internalName] }
  match r.1.2 with
  | some err => ((none, some err), w1)
  | none =>
    let volumeExportAttrs := volumeAttributes.VolumeExportAttributes
    let volumeIdAttrs := volumeAttributes.VolumeIdAttributes
    let volumeSecurityAttrs := volumeAttributes.VolumeSecurityAttributes
    let volumeSecurityUnixAttributes := volumeSecurityAttrs.VolumeSecurityUnixAttributes
    let volumeSpaceAttrs := volumeAttributes.VolumeSpaceAttributes
    let volumeSnapshotAttrs := volumeAttributes.VolumeSnapshotAttributes
    let volumeConfig : VolumeConfig :=
      { Version := "1",
        Name := name,
        InternalName := internalName,
        Size := stringOfInt volumeSpaceAttrs.SizeTotal,
        Protocol := Protocol.Block,
        SnapshotPolicy := volumeSnapshotAttrs.SnapshotPolicy,
        ExportPolicy := volumeExportAttrs.Policy,
        SnapshotDir := FormatBool volumeSnapshotAttrs.SnapdirAccessEnabled,
        UnixPermissions := volumeSecurityUnixAttributes.Permissions,
        StorageClass := "",
        AccessMode := AccessMode.ReadWriteOnce,
        AccessInfo := VolumeAccessInfo.zero,
        BlockSize := "",
        FileSystem := "ext4" }
    let volume : VolumeExternal :=
      { Config := volumeConfig, Backend := d.Name, Pool := volumeIdAttrs.ContainingAggregateName }
    ((some volume, none), w1)

/-! ## Host process runner -/

/-- The host as a process runner: `CombinedOutput` runs the command line `argv` and
returns the captured output and the error of `cmd.CombinedOutput()`. -/
structure Host (σ : Type) where
  CombinedOutput : List String → σ → (String × Option GoError) × σ

/-- Host state together with the log of command lines run so far. -/
structure HostWorld (σ : Type) where
  state : σ
  commands : List (List String)

/-- The discovery command line built by `DiscoverIscsiTarget`. -/
def discoverCommand (targetIP : String) : List String :=
  ["sudo", "iscsiadm", "-m", "discoverydb", "-t", "st", "-p", targetIP, "--discover"]

/-- The login command line built by `DiscoverIscsiTarget`. -/
def loginCommand (targetIP : String) : List String :=
  ["sudo", "iscsiadm", "-m", "node", "-p", targetIP, "--login"]

/-- `DiscoverIscsiTarget`. -/
def DiscoverIscsiTarget {σ : Type} (host : Host σ) (targetIP : String) (w : HostWorld σ) :
    Option GoError × HostWorld σ :=
  let r1 := host.CombinedOutput (discoverCommand targetIP) w.state
  let w1 : HostWorld σ := { state := r1.2, commands := w.commands ++ [discoverCommand targetIP] }
  match r1.1.2 with
  | some err => (some err, w1)
  | none =>
    let r2 := host.CombinedOutput (loginCommand targetIP) w1.state
    let w2 : HostWorld σ := { state := r2.2, commands := w1.commands ++ [loginCommand targetIP] }
    match r2.1.2 with
    | some err => (some err, w2)
    | none => (none, w2)

/-! ## Names for the intermediate results of `mapOntapSANLun` -/

/-- The results of the call `d.API.IscsiServiceGetIterRequest()` made in world `w`. -/
def serviceQuery {σ : Type} (d : OntapSANStorageDriver σ) (w : World σ) :
    (IscsiServiceGetIterResponse × Option GoError) × σ :=
  d.API.IscsiServiceGetIterRequest w.state

/-- The LUN path of a volume under the first-LUN convention. -/
def lunPathOf (volConfig : VolumeConfig) : String :=
  "/vol/" ++ volConfig.InternalName ++ "/lun0"

/-- The results of the call `d.API.LunMapIfNotMapped(d.Config.IgroupName, lunPath)` made
after the service query of world `w`. -/
def lunMap {σ : Type} (d : OntapSANStorageDriver σ) (volConfig : VolumeConfig) (w : World σ) :
    (Int × Option GoError) × σ :=
  d.API.LunMapIfNotMapped d.Config.IgroupName (lunPathOf volConfig) (serviceQuery d w).2

/-! ## Concrete collaborators used to instantiate the theorems -/

/-- A controller client with fixed answers; its state counts the calls made. -/
def fixedAPI (response : IscsiServiceGetIterResponse) (queryErr : Option GoError)
    (lunID : Int) (mapErr : Option GoError) (encryption : Bool)
    (volume : VolumeAttributesType) (getErr : Option GoError) : API Nat :=
  { SupportsApiFeature := fun _ n => (encryption, n + 1),
    IscsiServiceGetIterRequest := fun n => ((response, queryErr), n + 1),
    LunMapIfNotMapped := fun _ _ n => ((lunID, mapErr), n + 1),
    VolumeGet := fun _ n => ((volume, getErr), n + 1) }

/-- A service response with the given status, errno and endpoint list. -/
def responseOf (status errno : String) (endpoints : List IscsiServiceInfoType) :
    IscsiServiceGetIterResponse :=
  { Result := { ResultStatusAttr := status, ResultErrnoAttr := errno,
                AttributesList := endpoints } }

/-- Endpoints of three services, two of them owned by `svm1`. -/
def sampleEndpoints : List IscsiServiceInfoType :=
  [ { Vserver := "svm0", NodeName := "iqn.1992-08.com.netapp:sn.0" },
    { Vserver := "svm1", NodeName := "iqn.1992-08.com.netapp:sn.1" },
    { Vserver := "svm1", NodeName := "iqn.1992-08.com.netapp:sn.2" } ]

/-- Attributes of a 10 GiB volume. -/
def sampleVolume : VolumeAttributesType :=
  { VolumeExportAttributes := { Policy := "default" },
    VolumeIdAttributes := { ContainingAggregateName := "aggr1" },
    VolumeSecurityAttributes := { VolumeSecurityUnixAttributes := { Permissions := "0755" } },
    VolumeSpaceAttributes := { SizeTotal := 10737418240 },
    VolumeSnapshotAttributes := { SnapshotPolicy := "default", SnapdirAccessEnabled := true } }

/-- A driver for SVM `svm1` with igroup `trident` and data LIF `10.0.0.1`. -/
def sampleDriver (api : API Nat) : OntapSANStorageDriver Nat :=
  { Name := "ontap-san",
    Config := { CommonStorageDriverConfig := { StorageDriverName := "ontap-san" },
                DataLIF := "10.0.0.1", IgroupName := "trident", SVM := "svm1" },
    API := api }

/-- The volume `vol1` with internal name `trident_vol1` and access info left over from an
earlier mapping. -/
def sampleVolConfig : VolumeConfig :=
  { Version := "1", Name := "vol1", InternalName := "trident_vol1", Size := "1073741824",
    Protocol := Protocol.Block, SnapshotPolicy := "none", ExportPolicy := "default",
    SnapshotDir := "false", UnixPermissions := "---rwxr-xr-x", StorageClass := "gold",
    AccessMode := AccessMode.ReadWriteOnce,
    AccessInfo := { IscsiTargetPortal := "10.9.9.9", IscsiTargetIQN := "iqn.stale",
                    IscsiLunNumber := 7, IscsiIgroup := "stale" },
    BlockSize := "", FileSystem := "ext4" }

/-- The world before any call. -/
def world0 : World Nat :=
  { state := 0, calls := [] }

/-- The helper `getInternalVolumeNameCommon` of the examples: the storage prefix
`trident_` put before the name. -/
def sampleInternalName (_c : CommonStorageDriverConfig) (name : String) : String :=
  "trident_" ++ name

/-- A host whose commands all succeed with the given output. -/
def okHost (out : String) : Host Nat :=
  { CombinedOutput := fun _ n => ((out, none), n + 1) }

/-- A host on which the commands from the `k`-th on fail with error `e`. -/
def failingHost (k : Nat) (e : GoError) : Host Nat :=
  { CombinedOutput := fun _ n => (("", if k ≤ n then some e else none), n + 1) }

/-- The host world before any command. -/
def hostWorld0 : HostWorld Nat :=
  { state := 0, commands := [] }

/-- The sample driver on a controller whose service query reports status `failed`. -/
def failedQueryDriver : OntapSANStorageDriver Nat :=
  sampleDriver (fixedAPI (responseOf "failed" "13005" sampleEndpoints) none 3 none true
    sampleVolume none)

/-- The sample driver on a controller where the service query and the LUN map succeed;
the LUN id is 3. -/
def mappedDriver : OntapSANStorageDriver Nat :=
  sampleDriver (fixedAPI (responseOf "passed" "" sampleEndpoints) none 3 none true
    sampleVolume none)

/-- The sample driver on a controller none of whose endpoints is owned by `svm1`. -/
def unmatchedDriver : OntapSANStorageDriver Nat :=
  sampleDriver (fixedAPI
    (responseOf "passed" "" [{ Vserver := "svm0", NodeName := "iqn.1992-08.com.netapp:sn.0" }])
    none 5 none true sampleVolume none)

/-- The sample driver on a controller whose LUN map call fails. -/
def mapErrorDriver : OntapSANStorageDriver Nat :=
  sampleDriver (fixedAPI (responseOf "passed" "" sampleEndpoints) none 0
    (some ⟨"lun-map failed"⟩) true sampleVolume none)

/-- The sample driver on a controller that reports the LUN id `2^31`. -/
def wideLunDriver : OntapSANStorageDriver Nat :=
  sampleDriver (fixedAPI (responseOf "passed" "" sampleEndpoints) none 2147483648 none true
    sampleVolume none)

/-! ## The three paths through `mapOntapSANLun` -/

/-- The service query of world `w` did not succeed: status other than `passed`, or an
error. -/
def queryFailed {σ : Type} (d : OntapSANStorageDriver σ) (w : World σ) : Prop :=
  (serviceQuery d w).1.1.Result.ResultStatusAttr ≠ "passed" ∨ (serviceQuery d w).1.2 ≠ none

/-- The service query of world `w` succeeded: status `passed` and no error. -/
def queryPassed {σ : Type} (d : OntapSANStorageDriver σ) (w : World σ) : Prop :=
  (serviceQuery d w).1.1.Result.ResultStatusAttr = "passed" ∧ (serviceQuery d w).1.2 = none

instance {σ : Type} (d : OntapSANStorageDriver σ) (w : World σ) : Decidable (queryFailed d w) := by
  unfold queryFailed; infer_instance

instance {σ : Type} (d : OntapSANStorageDriver σ) (w : World σ) : Decidable (queryPassed d w) := by
  unfold queryPassed; infer_instance

theorem queryPassed_iff_not_failed {σ : Type} (d : OntapSANStorageDriver σ) (w : World σ) :
    queryPassed d w ↔ ¬ queryFailed d w := by
  unfold queryPassed queryFailed
  constructor
  · rintro ⟨h1, h2⟩ (h | h)
    · exact h h1
    · exact h h2
  · intro h
    constructor
    · by_contra h1
      exact h (Or.inl h1)
    · by_contra h2
      exact h (Or.inr h2)

theorem mapOntapSANLun_query_failed {σ : Type} (d : OntapSANStorageDriver σ)
    (volConfig : VolumeConfig) (w : World σ) (h : queryFailed d w) :
    mapOntapSANLun d volConfig w =
      { err := some ⟨"Problem retrieving iSCSI services: " ++ fmtError (serviceQuery d w).1.2
                ++ ", " ++ (serviceQuery d w).1.1.Result.ResultErrnoAttr⟩,
        volConfig := volConfig, driver := d,
        world := { state := (serviceQuery d w).2,
                   calls := w.calls ++ [ApiCall.IscsiServiceGetIterRequest] } } := by
  unfold queryFailed serviceQuery at h
  unfold mapOntapSANLun serviceQuery
  simp only [if_pos h]

theorem mapOntapSANLun_map_failed {σ : Type} (d : OntapSANStorageDriver σ)
    (volConfig : VolumeConfig) (w : World σ) (e : GoError) (h : queryPassed d w)
    (hmap : (lunMap d volConfig w).1.2 = some e) :
    mapOntapSANLun d volConfig w =
      { err := some e, volConfig := volConfig, driver := d,
        world := { state := (lunMap d volConfig w).2,
                   calls := w.calls ++ [ApiCall.IscsiServiceGetIterRequest,
                     ApiCall.LunMapIfNotMapped d.Config.IgroupName (lunPathOf volConfig)] } } := by
  have hn := (queryPassed_iff_not_failed d w).1 h
  unfold queryFailed serviceQuery at hn
  unfold lunMap lunPathOf serviceQuery at hmap
  unfold mapOntapSANLun lunMap lunPathOf serviceQuery
  simp only [if_neg hn, hmap, List.append_assoc, List.singleton_append]

theorem mapOntapSANLun_mapped {σ : Type} (d : OntapSANStorageDriver σ)
    (volConfig : VolumeConfig) (w : World σ) (h : queryPassed d w)
    (hmap : (lunMap d volConfig w).1.2 = none) :
    mapOntapSANLun d volConfig w =
      { err := none,
        volConfig :=
          { volConfig with
            AccessInfo :=
              { IscsiTargetPortal := d.Config.DataLIF,
                IscsiTargetIQN :=
                  scanServices d.Config.SVM (serviceQuery d w).1.1.Result.AttributesList,
                IscsiLunNumber := int32 (lunMap d volConfig w).1.1,
                IscsiIgroup := d.Config.IgroupName } },
        driver := d,
        world := { state := (lunMap d volConfig w).2,
                   calls := w.calls ++ [ApiCall.IscsiServiceGetIterRequest,
                     ApiCall.LunMapIfNotMapped d.Config.IgroupName (lunPathOf volConfig)] } } := by
  have hn := (queryPassed_iff_not_failed d w).1 h
  unfold queryFailed serviceQuery at hn
  unfold lunMap lunPathOf serviceQuery at hmap
  unfold mapOntapSANLun lunMap lunPathOf serviceQuery
  simp only [if_neg hn, hmap, List.append_assoc, List.singleton_append]

/-- The scan returns the node name of the first entry owned by the SVM. -/
theorem scanServices_first (svm : String) (pre post : List IscsiServiceInfoType)
    (e : IscsiServiceInfoType) (hpre : ∀ x ∈ pre, x.Vserver ≠ svm) (he : e.Vserver = svm) :
    scanServices svm (pre ++ e :: post) = e.NodeName := by
  induction pre with
  | nil => simp [scanServices, he]
  | cons x xs ih =>
    have hx : x.Vserver ≠ svm := hpre x (List.mem_cons_self x xs)
    have hxs : ∀ y ∈ xs, y.Vserver ≠ svm := fun y hy => hpre y (List.mem_cons_of_mem x hy)
    simp [scanServices, hx, ih hxs]

/-- The scan returns the empty string when no entry is owned by the SVM. -/
theorem scanServices_none (svm : String) (l : List IscsiServiceInfoType)
    (h : ∀ x ∈ l, x.Vserver ≠ svm) : scanServices svm l = "" := by
  induction l with
  | nil => rfl
  | cons x xs ih =>
    have hx : x.Vserver ≠ svm := h x (List.mem_cons_self x xs)
    have hxs : ∀ y ∈ xs, y.Vserver ≠ svm := fun y hy => h y (List.mem_cons_of_mem x hy)
    simp [scanServices, hx, ih hxs]

/-- The conversion `int32` is the identity on the `int32` range. -/
theorem int32_of_isInt32 (x : Int) (h : isInt32 x) : int32 x = x := by
  unfold isInt32 at h
  unfold int32
  omega

/-- The conversion `int32` always lands in the `int32` range. -/
theorem int32_isInt32 (x : Int) : isInt32 (int32 x) := by
  unfold isInt32 int32
  omega

theorem GetExternalVolume_found {σ : Type}
    (getInternalVolumeNameCommon : CommonStorageDriverConfig → String → String)
    (d : OntapSANStorageDriver σ) (name : String) (w : World σ)
    (hget : (d.API.VolumeGet (GetInternalVolumeName getInternalVolumeNameCommon d name)
              w.state).1.2 = none) :
    GetExternalVolume getInternalVolumeNameCommon d name w =
      ((some
          { Config :=
              { Version := "1",
                Name := name,
                InternalName := GetInternalVolumeName getInternalVolumeNameCommon d name,
                Size := stringOfInt
                  (d.API.VolumeGet (GetInternalVolumeName getInternalVolumeNameCommon d name)
                    w.state).1.1.VolumeSpaceAttributes.SizeTotal,
                Protocol := Protocol.Block,
                SnapshotPolicy :=
                  (d.API.VolumeGet (GetInternalVolumeName getInternalVolumeNameCommon d name)
                    w.state).1.1.VolumeSnapshotAttributes.SnapshotPolicy,
                ExportPolicy :=
                  (d.API.VolumeGet (GetInternalVolumeName getInternalVolumeNameCommon d name)
                    w.state).1.1.VolumeExportAttributes.Policy,
                SnapshotDir := FormatBool
                  (d.API.VolumeGet (GetInternalVolumeName getInternalVolumeNameCommon d name)
                    w.state).1.1.VolumeSnapshotAttributes.SnapdirAccessEnabled,
                UnixPermissions :=
                  (d.API.VolumeGet (GetInternalVolumeName getInternalVolumeNameCommon d name)
                    w.state).1.1.VolumeSecurityAttributes.VolumeSecurityUnixAttributes.Permissions,
                StorageClass := "",
                AccessMode := AccessMode.ReadWriteOnce,
                AccessInfo := VolumeAccessInfo.zero,
                BlockSize := "",
                FileSystem := "ext4" },
            Backend := d.Name,
            Pool :=
              (d.API.VolumeGet (GetInternalVolumeName getInternalVolumeNameCommon d name)
                w.state).1.1.VolumeIdAttributes.ContainingAggregateName },
        none),
       { state := (d.API.VolumeGet (GetInternalVolumeName getInternalVolumeNameCommon d name)
                    w.state).2,
         calls := w.calls ++
           [ApiCall.VolumeGet (GetInternalVolumeName getInternalVolumeNameCommon d name)] }) := by
  unfold GetExternalVolume
  simp only [hget]

/-- Every result of the conversion `string(v)` holds exactly one code point. -/
theorem stringOfInt_length (v : Int) : (stringOfInt v).length = 1 := by
  unfold stringOfInt
  split <;> rfl

/-! ## The mapping step (`mapOntapSANLun`, `CreateFollowup`) -/

/-- C1: if the iSCSI service query reports a status other than `passed` or returns an
error, then `mapOntapSANLun` (and so `CreateFollowup`) returns an error, the only
controller call made is the service query (`LunMapIfNotMapped` is not called), and the
volume config, with every `AccessInfo` field, is as it was before the call. -/
theorem mapOntapSANLun_query_error {σ : Type} (d : OntapSANStorageDriver σ)
    (volConfig : VolumeConfig) (w : World σ)
    (h : (d.API.IscsiServiceGetIterRequest w.state).1.1.Result.ResultStatusAttr ≠ "passed" ∨
         (d.API.IscsiServiceGetIterRequest w.state).1.2 ≠ none) :
    (mapOntapSANLun d volConfig w).err ≠ none ∧
    (CreateFollowup d volConfig w).err ≠ none ∧
    (mapOntapSANLun d volConfig w).err =
      some ⟨"Problem retrieving iSCSI services: "
              ++ fmtError (d.API.IscsiServiceGetIterRequest w.state).1.2 ++ ", "
              ++ (d.API.IscsiServiceGetIterRequest w.state).1.1.Result.ResultErrnoAttr⟩ ∧
    (mapOntapSANLun d volConfig w).world.calls =
      w.calls ++ [ApiCall.IscsiServiceGetIterRequest] ∧
    (∀ g p, ApiCall.LunMapIfNotMapped g p ∈ (mapOntapSANLun d volConfig w).world.calls →
      ApiCall.LunMapIfNotMapped g p ∈ w.calls) ∧
    (mapOntapSANLun d volConfig w).volConfig.AccessInfo = volConfig.AccessInfo ∧
    (CreateFollowup d volConfig w).volConfig.AccessInfo = volConfig.AccessInfo := by
  have hq : queryFailed d w := h
  have hrun := mapOntapSANLun_query_failed d volConfig w hq
  unfold CreateFollowup
  rw [hrun]
  refine ⟨by simp, by simp, rfl, rfl, ?_, rfl, rfl⟩
  intro g p hmem
  simpa using hmem

/-- Instance of C1: a query answered with status `failed` and errno `13005`. -/
theorem mapOntapSANLun_query_error_witness :
    (mapOntapSANLun failedQueryDriver sampleVolConfig world0).err =
        some ⟨"Problem retrieving iSCSI services: <nil>, 13005"⟩ ∧
    (mapOntapSANLun failedQueryDriver sampleVolConfig world0).world.calls =
        [ApiCall.IscsiServiceGetIterRequest] ∧
    (mapOntapSANLun failedQueryDriver sampleVolConfig world0).volConfig.AccessInfo =
        { IscsiTargetPortal := "10.9.9.9", IscsiTargetIQN := "iqn.stale",
          IscsiLunNumber := 7, IscsiIgroup := "stale" } :=
  have h := mapOntapSANLun_query_error failedQueryDriver sampleVolConfig world0
    (Or.inl (by decide))
  ⟨h.2.2.1, h.2.2.2.1, h.2.2.2.2.2.1⟩

/-- C2: on a successful run (service query `passed` without error, LUN map without
error) the controller calls are the service query followed by the LUN map for the
configured igroup and the path `/vol/<InternalName>/lun0`, no error is returned, the
portal is the data LIF, the igroup is the configured igroup, and the target IQN is the node
name of the first endpoint owned by the configured SVM, whatever follows it. -/
theorem mapOntapSANLun_success {σ : Type} (d : OntapSANStorageDriver σ)
    (volConfig : VolumeConfig) (w : World σ)
    (hstatus : (d.API.IscsiServiceGetIterRequest w.state).1.1.Result.ResultStatusAttr = "passed")
    (herr : (d.API.IscsiServiceGetIterRequest w.state).1.2 = none)
    (hmap : (d.API.LunMapIfNotMapped d.Config.IgroupName
              ("/vol/" ++ volConfig.InternalName ++ "/lun0")
              (d.API.IscsiServiceGetIterRequest w.state).2).1.2 = none) :
    (mapOntapSANLun d volConfig w).err = none ∧
    (mapOntapSANLun d volConfig w).world.calls =
      w.calls ++ [ApiCall.IscsiServiceGetIterRequest,
        ApiCall.LunMapIfNotMapped d.Config.IgroupName
          ("/vol/" ++ volConfig.InternalName ++ "/lun0")] ∧
    (mapOntapSANLun d volConfig w).volConfig.AccessInfo.IscsiTargetPortal = d.Config.DataLIF ∧
    (mapOntapSANLun d volConfig w).volConfig.AccessInfo.IscsiIgroup = d.Config.IgroupName ∧
    (∀ (pre post : List IscsiServiceInfoType) (e : IscsiServiceInfoType),
      (d.API.IscsiServiceGetIterRequest w.state).1.1.Result.AttributesList = pre ++ e :: post →
      (∀ x ∈ pre, x.Vserver ≠ d.Config.SVM) → e.Vserver = d.Config.SVM →
      (mapOntapSANLun d volConfig w).volConfig.AccessInfo.IscsiTargetIQN = e.NodeName) := by
  have hq : queryPassed d w := ⟨hstatus, herr⟩
  have hm : (lunMap d volConfig w).1.2 = none := hmap
  have hrun := mapOntapSANLun_mapped d volConfig w hq hm
  rw [hrun]
  refine ⟨rfl, rfl, rfl, rfl, ?_⟩
  intro pre post e hlist hpre he
  show scanServices d.Config.SVM (serviceQuery d w).1.1.Result.AttributesList = e.NodeName
  have hl : (serviceQuery d w).1.1.Result.AttributesList = pre ++ e :: post := hlist
  rw [hl]
  exact scanServices_first d.Config.SVM pre post e hpre he

/-- Instance of C2: volume `trident_vol1`, igroup `trident`, data LIF `10.0.0.1`, and an
endpoint list whose second and third entries are owned by the configured SVM. -/
theorem mapOntapSANLun_success_witness :
    (mapOntapSANLun mappedDriver sampleVolConfig world0).err = none ∧
    (mapOntapSANLun mappedDriver sampleVolConfig world0).world.calls =
      [ApiCall.IscsiServiceGetIterRequest,
       ApiCall.LunMapIfNotMapped "trident" "/vol/trident_vol1/lun0"] ∧
    (mapOntapSANLun mappedDriver sampleVolConfig world0).volConfig.AccessInfo.IscsiTargetPortal
      = "10.0.0.1" ∧
    (mapOntapSANLun mappedDriver sampleVolConfig world0).volConfig.AccessInfo.IscsiIgroup
      = "trident" ∧
    (mapOntapSANLun mappedDriver sampleVolConfig world0).volConfig.AccessInfo.IscsiTargetIQN
      = "iqn.1992-08.com.netapp:sn.1" :=
  have h := mapOntapSANLun_success mappedDriver sampleVolConfig world0
    (by decide) (by decide) (by decide)
  ⟨h.1, h.2.1, h.2.2.1, h.2.2.2.1,
   h.2.2.2.2 [{ Vserver := "svm0", NodeName := "iqn.1992-08.com.netapp:sn.0" }]
     [{ Vserver := "svm1", NodeName := "iqn.1992-08.com.netapp:sn.2" }]
     { Vserver := "svm1", NodeName := "iqn.1992-08.com.netapp:sn.1" }
     (by decide) (by decide) (by decide)⟩

/-- C3: when the service query passes, no returned endpoint (possibly none at all) is
owned by the configured SVM and the LUN map succeeds, `mapOntapSANLun` returns no error and
sets the target IQN to the empty string whatever it held before, while writing the portal,
the LUN number and the igroup. -/
theorem mapOntapSANLun_no_matching_endpoint {σ : Type} (d : OntapSANStorageDriver σ)
    (volConfig : VolumeConfig) (w : World σ)
    (hstatus : (d.API.IscsiServiceGetIterRequest w.state).1.1.Result.ResultStatusAttr = "passed")
    (herr : (d.API.IscsiServiceGetIterRequest w.state).1.2 = none)
    (hnone : ∀ x ∈ (d.API.IscsiServiceGetIterRequest w.state).1.1.Result.AttributesList,
      x.Vserver ≠ d.Config.SVM)
    (hmap : (d.API.LunMapIfNotMapped d.Config.IgroupName
              ("/vol/" ++ volConfig.InternalName ++ "/lun0")
              (d.API.IscsiServiceGetIterRequest w.state).2).1.2 = none) :
    (mapOntapSANLun d volConfig w).err = none ∧
    (mapOntapSANLun d volConfig w).volConfig.AccessInfo.IscsiTargetIQN = "" ∧
    (mapOntapSANLun d volConfig w).volConfig.AccessInfo.IscsiTargetPortal = d.Config.DataLIF ∧
    (mapOntapSANLun d volConfig w).volConfig.AccessInfo.IscsiLunNumber =
      int32 (d.API.LunMapIfNotMapped d.Config.IgroupName
              ("/vol/" ++ volConfig.InternalName ++ "/lun0")
              (d.API.IscsiServiceGetIterRequest w.state).2).1.1 ∧
    (mapOntapSANLun d volConfig w).volConfig.AccessInfo.IscsiIgroup = d.Config.IgroupName := by
  have hq : queryPassed d w := ⟨hstatus, herr⟩
  have hm : (lunMap d volConfig w).1.2 = none := hmap
  have hrun := mapOntapSANLun_mapped d volConfig w hq hm
  rw [hrun]
  refine ⟨rfl, ?_, rfl, rfl, rfl⟩
  exact scanServices_none d.Config.SVM _ hnone

/-- Instance of C3: the only endpoint is owned by `svm0`, the driver serves `svm1`, and
the volume config enters with the stale IQN `iqn.stale`. -/
theorem mapOntapSANLun_no_matching_endpoint_witness :
    sampleVolConfig.AccessInfo.IscsiTargetIQN = "iqn.stale" ∧
    (mapOntapSANLun unmatchedDriver sampleVolConfig world0).err = none ∧
    (mapOntapSANLun unmatchedDriver sampleVolConfig world0).volConfig.AccessInfo.IscsiTargetIQN
      = "" ∧
    (mapOntapSANLun unmatchedDriver sampleVolConfig world0).volConfig.AccessInfo.IscsiTargetPortal
      = "10.0.0.1" ∧
    (mapOntapSANLun unmatchedDriver sampleVolConfig world0).volConfig.AccessInfo.IscsiLunNumber
      = 5 ∧
    (mapOntapSANLun unmatchedDriver sampleVolConfig world0).volConfig.AccessInfo.IscsiIgroup
      = "trident" :=
  have h := mapOntapSANLun_no_matching_endpoint unmatchedDriver sampleVolConfig world0
    (by decide) (by decide) (by decide) (by decide)
  ⟨rfl, h.1, h.2.1, h.2.2.1, h.2.2.2.1, h.2.2.2.2⟩

/-- C4 (as amended): on a successful mapping the LUN number written to the access info is
the conversion `int32` of the controller-returned id. It always lies in the `int32` range,
and it equals the returned id exactly when that id lies in the `int32` range. -/
theorem mapOntapSANLun_lun_number {σ : Type} (d : OntapSANStorageDriver σ)
    (volConfig : VolumeConfig) (w : World σ)
    (hstatus : (d.API.IscsiServiceGetIterRequest w.state).1.1.Result.ResultStatusAttr = "passed")
    (herr : (d.API.IscsiServiceGetIterRequest w.state).1.2 = none)
    (hmap : (d.API.LunMapIfNotMapped d.Config.IgroupName
              ("/vol/" ++ volConfig.InternalName ++ "/lun0")
              (d.API.IscsiServiceGetIterRequest w.state).2).1.2 = none) :
    (mapOntapSANLun d volConfig w).volConfig.AccessInfo.IscsiLunNumber =
      int32 (d.API.LunMapIfNotMapped d.Config.IgroupName
              ("/vol/" ++ volConfig.InternalName ++ "/lun0")
              (d.API.IscsiServiceGetIterRequest w.state).2).1.1 ∧
    isInt32 (mapOntapSANLun d volConfig w).volConfig.AccessInfo.IscsiLunNumber ∧
    ((mapOntapSANLun d volConfig w).volConfig.AccessInfo.IscsiLunNumber =
        (d.API.LunMapIfNotMapped d.Config.IgroupName
              ("/vol/" ++ volConfig.InternalName ++ "/lun0")
              (d.API.IscsiServiceGetIterRequest w.state).2).1.1 ↔
      isInt32 (d.API.LunMapIfNotMapped d.Config.IgroupName
              ("/vol/" ++ volConfig.InternalName ++ "/lun0")
              (d.API.IscsiServiceGetIterRequest w.state).2).1.1) := by
  have hq : queryPassed d w := ⟨hstatus, herr⟩
  have hm : (lunMap d volConfig w).1.2 = none := hmap
  have hrun := mapOntapSANLun_mapped d volConfig w hq hm
  rw [hrun]
  refine ⟨rfl, int32_isInt32 _, ?_⟩
  show int32 (lunMap d volConfig w).1.1 = (lunMap d volConfig w).1.1 ↔
    isInt32 (lunMap d volConfig w).1.1
  constructor
  · intro heq
    rw [← heq]
    exact int32_isInt32 _
  · exact int32_of_isInt32 _

/-- Instance of C4 (as amended): the controller returns the LUN id 3. -/
theorem mapOntapSANLun_lun_number_witness :
    isInt32 3 ∧
    (mapOntapSANLun mappedDriver sampleVolConfig world0).volConfig.AccessInfo.IscsiLunNumber
      = 3 :=
  have h := mapOntapSANLun_lun_number mappedDriver sampleVolConfig world0
    (by decide) (by decide) (by decide)
  ⟨by decide, h.2.2.2 (by decide)⟩

/-- C4 refuted as stated: the controller returns the LUN id `2^31`, a value of Go `int`,
the mapping succeeds, and the LUN number written is `-2^31`, not the returned id. -/
theorem mapOntapSANLun_lun_number_narrowed :
    isInt 2147483648 ∧
    (wideLunDriver.API.LunMapIfNotMapped wideLunDriver.Config.IgroupName
      ("/vol/" ++ sampleVolConfig.InternalName ++ "/lun0")
      (wideLunDriver.API.IscsiServiceGetIterRequest world0.state).2).1 = (2147483648, none) ∧
    (mapOntapSANLun wideLunDriver sampleVolConfig world0).err = none ∧
    (mapOntapSANLun wideLunDriver sampleVolConfig world0).volConfig.AccessInfo.IscsiLunNumber
      = -2147483648 ∧
    (mapOntapSANLun wideLunDriver sampleVolConfig world0).volConfig.AccessInfo.IscsiLunNumber
      ≠ 2147483648 := by
  decide

/-- C8: when the service query passes and `LunMapIfNotMapped` returns the error `e`,
`mapOntapSANLun` returns exactly `e` and the volume config, with every `AccessInfo` field,
is as it was before the call, whether or not an endpoint of the SVM was found. -/
theorem mapOntapSANLun_map_error {σ : Type} (d : OntapSANStorageDriver σ)
    (volConfig : VolumeConfig) (w : World σ) (e : GoError)
    (hstatus : (d.API.IscsiServiceGetIterRequest w.state).1.1.Result.ResultStatusAttr = "passed")
    (herr : (d.API.IscsiServiceGetIterRequest w.state).1.2 = none)
    (hmap : (d.API.LunMapIfNotMapped d.Config.IgroupName
              ("/vol/" ++ volConfig.InternalName ++ "/lun0")
              (d.API.IscsiServiceGetIterRequest w.state).2).1.2 = some e) :
    (mapOntapSANLun d volConfig w).err = some e ∧
    (mapOntapSANLun d volConfig w).volConfig.AccessInfo = volConfig.AccessInfo ∧
    (mapOntapSANLun d volConfig w).volConfig = volConfig := by
  have hq : queryPassed d w := ⟨hstatus, herr⟩
  have hm : (lunMap d volConfig w).1.2 = some e := hmap
  have hrun := mapOntapSANLun_map_failed d volConfig w e hq hm
  rw [hrun]
  exact ⟨rfl, rfl, rfl⟩

/-- Instance of C8: the endpoint list holds an entry of the configured SVM and the LUN
map fails with `lun-map failed`. -/
theorem mapOntapSANLun_map_error_witness :
    scanServices mapErrorDriver.Config.SVM sampleEndpoints = "iqn.1992-08.com.netapp:sn.1" ∧
    (mapOntapSANLun mapErrorDriver sampleVolConfig world0).err = some ⟨"lun-map failed"⟩ ∧
    (mapOntapSANLun mapErrorDriver sampleVolConfig world0).volConfig.AccessInfo =
      { IscsiTargetPortal := "10.9.9.9", IscsiTargetIQN := "iqn.stale",
        IscsiLunNumber := 7, IscsiIgroup := "stale" } :=
  have h := mapOntapSANLun_map_error mapErrorDriver sampleVolConfig world0 ⟨"lun-map failed"⟩
    (by decide) (by decide) (by decide)
  ⟨by decide, h.1, h.2.1⟩

/-- C10: whatever the controller answers, `mapOntapSANLun` leaves every field of the
volume config other than `AccessInfo` (whose fields are the portal, the IQN, the LUN
number and the igroup) as it was, and leaves the driver, with its `Config`, as it was. -/
theorem mapOntapSANLun_frame {σ : Type} (d : OntapSANStorageDriver σ)
    (volConfig : VolumeConfig) (w : World σ) :
    (mapOntapSANLun d volConfig w).volConfig =
      { volConfig with AccessInfo := (mapOntapSANLun d volConfig w).volConfig.AccessInfo } ∧
    (mapOntapSANLun d volConfig w).volConfig.Version = volConfig.Version ∧
    (mapOntapSANLun d volConfig w).volConfig.Name = volConfig.Name ∧
    (mapOntapSANLun d volConfig w).volConfig.InternalName = volConfig.InternalName ∧
    (mapOntapSANLun d volConfig w).volConfig.Size = volConfig.Size ∧
    (mapOntapSANLun d volConfig w).volConfig.Protocol = volConfig.Protocol ∧
    (mapOntapSANLun d volConfig w).volConfig.SnapshotPolicy = volConfig.SnapshotPolicy ∧
    (mapOntapSANLun d volConfig w).volConfig.ExportPolicy = volConfig.ExportPolicy ∧
    (mapOntapSANLun d volConfig w).volConfig.SnapshotDir = volConfig.SnapshotDir ∧
    (mapOntapSANLun d volConfig w).volConfig.UnixPermissions = volConfig.UnixPermissions ∧
    (mapOntapSANLun d volConfig w).volConfig.StorageClass = volConfig.StorageClass ∧
    (mapOntapSANLun d volConfig w).volConfig.AccessMode = volConfig.AccessMode ∧
    (mapOntapSANLun d volConfig w).volConfig.BlockSize = volConfig.BlockSize ∧
    (mapOntapSANLun d volConfig w).volConfig.FileSystem = volConfig.FileSystem ∧
    (mapOntapSANLun d volConfig w).driver = d ∧
    (mapOntapSANLun d volConfig w).driver.Config = d.Config := by
  by_cases hf : queryFailed d w
  · rw [mapOntapSANLun_query_failed d volConfig w hf]
    simp
  · have hq : queryPassed d w := (queryPassed_iff_not_failed d w).2 hf
    cases hm : (lunMap d volConfig w).1.2 with
    | none =>
      rw [mapOntapSANLun_mapped d volConfig w hq hm]
      simp
    | some e =>
      rw [mapOntapSANLun_map_failed d volConfig w e hq hm]
      simp

/-! ## The external volume translator (`GetExternalVolume`) -/

/-- C5 fails on the code: for a reported total size of 10737418240 the lookup succeeds and
the `Size` field of the returned config is the one-code-point string `U+FFFD`, while the
decimal representation of the size is `10737418240`. -/
theorem GetExternalVolume_size_not_decimal :
    (GetExternalVolume sampleInternalName mappedDriver "vol1" world0).1.2 = none ∧
    sampleVolume.VolumeSpaceAttributes.SizeTotal = 10737418240 ∧
    ((GetExternalVolume sampleInternalName mappedDriver "vol1" world0).1.1.map
      (fun v => v.Config.Size)) = some "�" ∧
    Itoa 10737418240 = "10737418240" ∧
    ((GetExternalVolume sampleInternalName mappedDriver "vol1" world0).1.1.map
      (fun v => v.Config.Size)) ≠ some (Itoa 10737418240) := by
  decide

/-- C6: when the controller lookup succeeds, `GetExternalVolume` looks the volume up under
its internal name and returns, without error, a descriptor whose config carries the given
name, the internal name, the reported snapshot policy, export policy and unix permissions,
the snapshot-directory flag as `true` or `false`, protocol `Block`, access mode
`ReadWriteOnce`, file system `ext4` and the zero access info, whose pool is the reported
containing aggregate and whose backend is the driver name. -/
theorem GetExternalVolume_fields {σ : Type}
    (getInternalVolumeNameCommon : CommonStorageDriverConfig → String → String)
    (d : OntapSANStorageDriver σ) (name : String) (w : World σ)
    (hget : (d.API.VolumeGet (GetInternalVolumeName getInternalVolumeNameCommon d name)
              w.state).1.2 = none) :
    ∃ v : VolumeExternal,
      (GetExternalVolume getInternalVolumeNameCommon d name w).1 = (some v, none) ∧
      (GetExternalVolume getInternalVolumeNameCommon d name w).2.calls =
        w.calls ++ [ApiCall.VolumeGet (GetInternalVolumeName getInternalVolumeNameCommon d name)] ∧
      v.Config.Name = name ∧
      v.Config.InternalName = GetInternalVolumeName getInternalVolumeNameCommon d name ∧
      v.Config.SnapshotPolicy =
        (d.API.VolumeGet (GetInternalVolumeName getInternalVolumeNameCommon d name)
          w.state).1.1.VolumeSnapshotAttributes.SnapshotPolicy ∧
      v.Config.ExportPolicy =
        (d.API.VolumeGet (GetInternalVolumeName getInternalVolumeNameCommon d name)
          w.state).1.1.VolumeExportAttributes.Policy ∧
      v.Config.UnixPermissions =
        (d.API.VolumeGet (GetInternalVolumeName getInternalVolumeNameCommon d name)
          w.state).1.1.VolumeSecurityAttributes.VolumeSecurityUnixAttributes.Permissions ∧
      v.Config.SnapshotDir =
        (if (d.API.VolumeGet (GetInternalVolumeName getInternalVolumeNameCommon d name)
              w.state).1.1.VolumeSnapshotAttributes.SnapdirAccessEnabled = true
         then "true" else "false") ∧
      v.Config.Protocol = Protocol.Block ∧
      v.Config.AccessMode = AccessMode.ReadWriteOnce ∧
      v.Config.FileSystem = "ext4" ∧
      v.Config.AccessInfo =
        { IscsiTargetPortal := "", IscsiTargetIQN := "", IscsiLunNumber := 0,
          IscsiIgroup := "" } ∧
      v.Pool =
        (d.API.VolumeGet (GetInternalVolumeName getInternalVolumeNameCommon d name)
          w.state).1.1.VolumeIdAttributes.ContainingAggregateName ∧
      v.Backend = d.Name := by
  rw [GetExternalVolume_found getInternalVolumeNameCommon d name w hget]
  exact ⟨_, rfl, rfl, rfl, rfl, rfl, rfl, rfl, rfl, rfl, rfl, rfl, rfl, rfl, rfl⟩

/-- Instance of C6: the volume `vol1` of the sample controller. -/
theorem GetExternalVolume_fields_witness :
    ∃ v : VolumeExternal,
      (GetExternalVolume sampleInternalName mappedDriver "vol1" world0).1 = (some v, none) ∧
      (GetExternalVolume sampleInternalName mappedDriver "vol1" world0).2.calls =
        [ApiCall.VolumeGet "trident_vol1"] ∧
      v.Config.Name = "vol1" ∧ v.Config.InternalName = "trident_vol1" ∧
      v.Config.SnapshotPolicy = "default" ∧ v.Config.ExportPolicy = "default" ∧
      v.Config.UnixPermissions = "0755" ∧ v.Config.SnapshotDir = "true" ∧
      v.Config.Protocol = Protocol.Block ∧ v.Config.AccessMode = AccessMode.ReadWriteOnce ∧
      v.Config.FileSystem = "ext4" ∧
      v.Config.AccessInfo =
        { IscsiTargetPortal := "", IscsiTargetIQN := "", IscsiLunNumber := 0,
          IscsiIgroup := "" } ∧
      v.Pool = "aggr1" ∧ v.Backend = "ontap-san" :=
  GetExternalVolume_fields sampleInternalName mappedDriver "vol1" world0 (by decide)

/-! ## The capability advertiser (`GetStoragePoolAttributes`) -/

/-- C7: `GetStoragePoolAttributes` returns a map with exactly the four keys `BackendType`,
`Snapshots`, `Encryption` and `ProvisioningType`, each occurring once; `BackendType` is
the string offer of the driver name alone, `Snapshots` the bool offer `true`, `Encryption`
the bool offer of the probe result for `NETAPP_VOLUME_ENCRYPTION`, `ProvisioningType` the
string offer of `thick` and `thin`; the probe is the only controller call, made once. -/
theorem GetStoragePoolAttributes_offers {σ : Type} (d : OntapSANStorageDriver σ)
    (w : World σ) :
    ((GetStoragePoolAttributes d w).1.map Prod.fst).Nodup ∧
    ((GetStoragePoolAttributes d w).1.map Prod.fst).length = 4 ∧
    (∀ k : AttributeKey, k ∈ (GetStoragePoolAttributes d w).1.map Prod.fst ↔
      (k = AttributeKey.BackendType ∨ k = AttributeKey.Snapshots ∨
       k = AttributeKey.Encryption ∨ k = AttributeKey.ProvisioningType)) ∧
    lookupOffer AttributeKey.BackendType (GetStoragePoolAttributes d w).1 =
      some (Offer.NewStringOffer [d.Name]) ∧
    lookupOffer AttributeKey.Snapshots (GetStoragePoolAttributes d w).1 =
      some (Offer.NewBoolOffer true) ∧
    lookupOffer AttributeKey.Encryption (GetStoragePoolAttributes d w).1 =
      some (Offer.NewBoolOffer
        (d.API.SupportsApiFeature feature.NETAPP_VOLUME_ENCRYPTION w.state).1) ∧
    lookupOffer AttributeKey.ProvisioningType (GetStoragePoolAttributes d w).1 =
      some (Offer.NewStringOffer ["thick", "thin"]) ∧
    (GetStoragePoolAttributes d w).2.calls =
      w.calls ++ [ApiCall.SupportsApiFeature feature.NETAPP_VOLUME_ENCRYPTION] ∧
    (GetStoragePoolAttributes d w).2.state =
      (d.API.SupportsApiFeature feature.NETAPP_VOLUME_ENCRYPTION w.state).2 := by
  unfold GetStoragePoolAttributes
  refine ⟨by simp, rfl, ?_, rfl, rfl, rfl, rfl, rfl, rfl⟩
  intro k
  cases k <;> simp

/-! ## The initiator session manager (`DiscoverIscsiTarget`) -/

/-- C9: `DiscoverIscsiTarget` first runs `sudo iscsiadm -m discoverydb -t st -p <ip>
--discover`. If that fails with error `e`, nothing else is run and the result is `e`. If it
succeeds, `sudo iscsiadm -m node -p <ip> --login` is run next, in the host state the
discovery left, and the result is the outcome of that command. -/
theorem DiscoverIscsiTarget_sequence {σ : Type} (host : Host σ) (targetIP : String)
    (w : HostWorld σ) :
    (∀ e : GoError,
      (host.CombinedOutput
        ["sudo", "iscsiadm", "-m", "discoverydb", "-t", "st", "-p", targetIP, "--discover"]
        w.state).1.2 = some e →
      (DiscoverIscsiTarget host targetIP w).1 = some e ∧
      (DiscoverIscsiTarget host targetIP w).2.commands = w.commands ++
        [["sudo", "iscsiadm", "-m", "discoverydb", "-t", "st", "-p", targetIP, "--discover"]]) ∧
    ((host.CombinedOutput
        ["sudo", "iscsiadm", "-m", "discoverydb", "-t", "st", "-p", targetIP, "--discover"]
        w.state).1.2 = none →
      (DiscoverIscsiTarget host targetIP w).1 =
        (host.CombinedOutput ["sudo", "iscsiadm", "-m", "node", "-p", targetIP, "--login"]
          (host.CombinedOutput
            ["sudo", "iscsiadm", "-m", "discoverydb", "-t", "st", "-p", targetIP, "--discover"]
            w.state).2).1.2 ∧
      (DiscoverIscsiTarget host targetIP w).2.commands = w.commands ++
        [["sudo", "iscsiadm", "-m", "discoverydb", "-t", "st", "-p", targetIP, "--discover"],
         ["sudo", "iscsiadm", "-m", "node", "-p", targetIP, "--login"]]) := by
  constructor
  · intro e he
    unfold DiscoverIscsiTarget discoverCommand
    simp [he]
  · intro hok
    unfold DiscoverIscsiTarget discoverCommand loginCommand
    simp only [hok]
    split
    · next e he => simp [he]
    · next he => simp [he]

/-- Instance of C9: a host on which discovery fails, a host on which discovery succeeds and
login fails, and a host on which both succeed. -/
theorem DiscoverIscsiTarget_sequence_witness :
    ((DiscoverIscsiTarget (failingHost 0 ⟨"exit status 21"⟩) "10.0.0.1" hostWorld0).1 =
        some ⟨"exit status 21"⟩ ∧
      (DiscoverIscsiTarget (failingHost 0 ⟨"exit status 21"⟩) "10.0.0.1" hostWorld0).2.commands =
        [["sudo", "iscsiadm", "-m", "discoverydb", "-t", "st", "-p", "10.0.0.1",
          "--discover"]]) ∧
    ((DiscoverIscsiTarget (failingHost 1 ⟨"exit status 8"⟩) "10.0.0.1" hostWorld0).1 =
        some ⟨"exit status 8"⟩ ∧
      (DiscoverIscsiTarget (failingHost 1 ⟨"exit status 8"⟩) "10.0.0.1" hostWorld0).2.commands =
        [["sudo", "iscsiadm", "-m", "discoverydb", "-t", "st", "-p", "10.0.0.1",
          "--discover"],
         ["sudo", "iscsiadm", "-m", "node", "-p", "10.0.0.1", "--login"]]) ∧
    ((DiscoverIscsiTarget (okHost "10.0.0.1:3260,1026 iqn.1992-08.com.netapp:sn.1")
        "10.0.0.1" hostWorld0).1 = none) :=
  ⟨(DiscoverIscsiTarget_sequence (failingHost 0 ⟨"exit status 21"⟩) "10.0.0.1" hostWorld0).1
      ⟨"exit status 21"⟩ (by decide),
   (DiscoverIscsiTarget_sequence (failingHost 1 ⟨"exit status 8"⟩) "10.0.0.1" hostWorld0).2
      (by decide),
   ((DiscoverIscsiTarget_sequence (okHost "10.0.0.1:3260,1026 iqn.1992-08.com.netapp:sn.1")
      "10.0.0.1" hostWorld0).2 (by decide)).1⟩

end Ontap
